import Mathlib

/-!
Shallow embedding of the warthog618/gpio register-mapped pin model and the
sysfs edge watcher, with theorems checking the natural-language spec.

The embedding follows the current sources:
- the Pin model (NewPin, Read, Write, Toggle, Shadow) from the BCM2711-aware
  variant of the pin file;
- Open/Close of the register map from the mem file;
- the Watcher (RegisterPin with deferred unexport rollback, export with its
  EBUSY handling) from the current interrupt file.

Machine 32-bit words are modelled as Nat with explicit reduction mod 2^32
where the Go code truncates.  Go slice indexing panics out of bounds; this is
modelled by returning none.  Fallible OS interactions (file opens, mmap,
sysfs writes, epoll calls) are modelled by explicit environment records that
say how each OS step would answer: the Go control flow is then translated
faithfully over those answers.
-/

namespace Gpio

/-- Level represents the high (true) or low (false) level of a Pin. -/
abbrev Level := Bool

/-- Low level of a pin (Go: Low Level = false). -/
def Low : Level := false

/-- High level of a pin (Go: High Level = true). -/
def High : Level := true

/-- memLength: the size in bytes of the mapped register block. -/
def memLength : Nat := 4096

/-- MaxGPIOPin: number of supported BCM GPIO lines (the count of J8 pinout
constants, 28). -/
def MaxGPIOPin : Int := 28

/-- Pin represents a single GPIO pin; field order and names follow the Go
struct: immutable derived register bookkeeping plus the mutable shadow. -/
structure Pin where
  pin : Nat
  fsel : Nat
  levelReg : Nat
  clearReg : Nat
  setReg : Nat
  pullReg2711 : Nat
  bank : Nat
  mask : Nat
  shadow : Level
deriving DecidableEq

/-- NewPin, from the source: panic ("GPIO not initialised", modelled as the
outer none) when the map is empty; a nil pointer (inner none) when the line
number is out of range; otherwise the derived fields are computed and the
shadow is initialised from the level register.  The level-register read uses
List.get?, so an out-of-bounds read is the outer none, matching a Go index
panic. -/
def NewPin (mem : List Nat) (pin : Int) : Option (Option Pin) :=
  if mem.length = 0 then
    none
  else if pin < 0 ∨ MaxGPIOPin ≤ pin then
    some none
  else
    let p := pin.toNat
    let fsel := p / 10
    let bank := p / 32
    let mask := (1 <<< (p % 32)) % 2 ^ 32
    let levelReg := 13 + bank
    let clearReg := 10 + bank
    let setReg := 7 + bank
    let pullReg := 57 + p / 16
    match mem.get? levelReg with
    | none => none
    | some w =>
        some (some
          { pin := p, fsel := fsel, levelReg := levelReg, clearReg := clearReg,
            setReg := setReg, pullReg2711 := pullReg, bank := bank,
            mask := mask, shadow := decide (w &&& mask ≠ 0) })

/-- Shadow returns the value of the last write to an output pin or the last
read on an input pin. -/
def Pin.Shadow (p : Pin) : Level := p.shadow

/-- Read of the pin state: High when the level-register word masked by the
pin's bit mask is non-zero, Low otherwise; the shadow is set to the returned
level.  An out-of-bounds register index is a Go panic, modelled as none. -/
def Pin.Read (mem : List Nat) (p : Pin) : Option (Level × Pin) :=
  match mem.get? p.levelReg with
  | none => none
  | some w =>
      let level : Level := decide (w &&& p.mask ≠ 0)
      some (level, { p with shadow := level })

/-- Write of the pin state: the bit mask is stored whole into the clear
register (Low) or the set register (High), and the shadow is set to the
written level. -/
def Pin.Write (mem : List Nat) (p : Pin) (level : Level) :
    Option (List Nat × Pin) :=
  if level = Low then
    if p.clearReg < mem.length then
      some (mem.set p.clearReg p.mask, { p with shadow := level })
    else none
  else
    if p.setReg < mem.length then
      some (mem.set p.setReg p.mask, { p with shadow := level })
    else none

/-- Toggle of the pin state: writes Low when the cached shadow is set, High
otherwise. -/
def Pin.Toggle (mem : List Nat) (p : Pin) : Option (List Nat × Pin) :=
  if p.shadow then Pin.Write mem p Low else Pin.Write mem p High

/-- Errors of the package, covering ErrAlreadyOpen, ErrBusy, ErrTimeout and
any underlying OS error. -/
inductive GpioError
  | alreadyOpen
  | busy
  | timeout
  | osError
deriving DecidableEq

/-- Environment for Open: whether the device file opens, and the mmap answer
(none for failure, otherwise the mapped words). -/
structure OpenEnv where
  openFileOk : Bool
  mmapRes : Option (List Nat)
deriving DecidableEq

/-- Open of the register map, from the source: ErrAlreadyOpen when a mapping
already exists, the underlying error when the device open or the mmap fails,
otherwise the mapped words become the new mem. -/
def Open (mem : List Nat) (env : OpenEnv) : Option GpioError × List Nat :=
  if mem.length ≠ 0 then (some .alreadyOpen, mem)
  else if env.openFileOk then
    match env.mmapRes with
    | none => (some .osError, mem)
    | some words => (none, words)
  else (some .osError, mem)

/-- Close of the register map, from the source: the interrupt watcher is torn
down, mem is reset to the empty slice, and the munmap result is returned. -/
def Close (munmapOk : Bool) : Option GpioError × List Nat :=
  (if munmapOk then none else some .osError, [])

/-- Interrupt record owned by the Watcher: the watched line, the registered
handler (abstracted as an identifier) and the fd of the sysfs value file. -/
structure Interrupt where
  pin : Nat
  handlerId : Nat
  valueFd : Nat
deriving DecidableEq

/-- Watcher bookkeeping: the map from line number to value fd and the map
from value fd to interrupt record, modelled as association lists with the
most recent insertion in front. -/
structure WatcherState where
  interruptFds : List (Nat × Nat)
  interrupts : List (Nat × Interrupt)
deriving DecidableEq

/-- Outcome of the sysfs export write: success, EBUSY (line already
exported), or some other error. -/
inductive WriteRes
  | ok
  | ebusy
  | otherErr
deriving DecidableEq

/-- Environment for export: whether the export control file opens, the
outcome of writing the line number, and whether the wait for the per-line
files succeeds (false models the timeout). -/
structure ExportEnv where
  openOk : Bool
  writeRes : WriteRes
  waitOk : Bool
deriving DecidableEq

/-- export of a line on the sysfs interface, from the current source: an
open failure is returned; a write that fails with EBUSY returns ErrBusy; any
other write failure is returned; otherwise waitExported runs, returning
ErrTimeout on expiry. -/
def exportPin (env : ExportEnv) : Option GpioError :=
  if env.openOk then
    match env.writeRes with
    | .ebusy => some .busy
    | .otherErr => some .osError
    | .ok => if env.waitOk then none else some .timeout
  else some .osError

/-- Observable side effects performed by RegisterPin against the sysfs
interface and the epoll multiplexer, in call order. -/
inductive Action
  | exportA
  | unexportA
  | setEdgeA
  | openValueA
  | setNonblockA
  | epollAddA
deriving DecidableEq

/-- Environment for RegisterPin: the export environment, whether the edge
write succeeds, the value-file fd (none for an open failure), and whether the
non-blocking setup and the epoll registration succeed. -/
structure RegisterEnv where
  exportEnv : ExportEnv
  setEdgeOk : Bool
  openValueFd : Option Nat
  setNonblockOk : Bool
  epollCtlOk : Bool
deriving DecidableEq

/-- RegisterPin, from the current source: Busy when the line already has a
registration; otherwise export, then (with a deferred unexport covering
every later failure) setEdge, openValue, SetNonblock and EpollCtl in order;
on full success the two bookkeeping maps gain the line's entries.  The
result is the returned error, the new state, and the trace of side effects
performed. -/
def RegisterPin (st : WatcherState) (pin hid : Nat) (env : RegisterEnv) :
    Option GpioError × WatcherState × List Action :=
  match st.interruptFds.lookup pin with
  | some _ => (some .busy, st, [])
  | none =>
    match exportPin env.exportEnv with
    | some e => (some e, st, [.exportA])
    | none =>
      if env.setEdgeOk then
        match env.openValueFd with
        | none => (some .osError, st, [.exportA, .setEdgeA, .openValueA, .unexportA])
        | some fd =>
          if env.setNonblockOk then
            if env.epollCtlOk then
              (none,
                { interruptFds := (pin, fd) :: st.interruptFds,
                  interrupts := (fd, ⟨pin, hid, fd⟩) :: st.interrupts },
                [.exportA, .setEdgeA, .openValueA, .setNonblockA, .epollAddA])
            else
              (some .osError, st,
                [.exportA, .setEdgeA, .openValueA, .setNonblockA, .epollAddA,
                 .unexportA])
          else
            (some .osError, st,
              [.exportA, .setEdgeA, .openValueA, .setNonblockA, .unexportA])
      else (some .osError, st, [.exportA, .setEdgeA, .unexportA])

end Gpio
namespace Gpio

theorem NewPin_eq (mem : List Nat) (n : Int) (h0 : 0 ≤ n) (h1 : n < MaxGPIOPin)
    (hm : 13 < mem.length) :
    NewPin mem n = some (some
      ⟨n.toNat, n.toNat / 10, 13, 10, 7, 57 + n.toNat / 16, 0, 2 ^ n.toNat,
       decide (mem.getD 13 0 &&& 2 ^ n.toNat ≠ 0)⟩) := by
  have h28 : n.toNat < 28 := by
    have : n < 28 := by simpa [MaxGPIOPin] using h1
    omega
  have hlen : ¬ mem.length = 0 := by omega
  have hrange : ¬ (n < 0 ∨ MaxGPIOPin ≤ n) := by
    simp only [MaxGPIOPin]
    omega
  have hbank : n.toNat / 32 = 0 := Nat.div_eq_of_lt (by omega)
  have hmod : n.toNat % 32 = n.toNat := Nat.mod_eq_of_lt (by omega)
  have hmask : (1 <<< (n.toNat % 32)) % 2 ^ 32 = 2 ^ n.toNat := by
    rw [hmod, Nat.shiftLeft_eq, one_mul,
      Nat.mod_eq_of_lt (Nat.pow_lt_pow_right one_lt_two (by omega))]
  have hget : mem.get? (13 + n.toNat / 32) = some (mem.getD 13 0) := by
    rw [hbank, List.get?_eq_getElem?, List.getElem?_eq_getElem hm,
      List.getD_eq_getElem mem 0 hm]
  rw [NewPin, if_neg hlen, if_neg hrange]
  simp only [hbank, hmask, Nat.add_zero] at hget ⊢
  rw [hget]

end Gpio

namespace Gpio

set_option maxRecDepth 10000

/-- Claim C1: for every line number n with 0 <= n < MaxGPIOPin, constructed
while the register map is open, NewPin derives fsel = n / 10, bank = n / 32,
mask = 1 <<< (n mod 32), levelReg = bank + 13, clearReg = bank + 10,
setReg = bank + 7, and these derived fields are identical across repeated
constructions of the same line. -/
theorem newPin_derived_fields (mem : List Nat) (n : Int) (p : Pin)
    (hm : mem.length = memLength / 4) (h0 : 0 ≤ n) (h1 : n < MaxGPIOPin)
    (hp : NewPin mem n = some (some p)) :
    p.fsel = n.toNat / 10 ∧ p.bank = n.toNat / 32 ∧
    p.mask = 2 ^ (n.toNat % 32) ∧ p.levelReg = p.bank + 13 ∧
    p.clearReg = p.bank + 10 ∧ p.setReg = p.bank + 7 ∧
    (∀ mem₂ p₂, mem₂.length = memLength / 4 → NewPin mem₂ n = some (some p₂) →
      p₂.fsel = p.fsel ∧ p₂.bank = p.bank ∧ p₂.mask = p.mask ∧
      p₂.levelReg = p.levelReg ∧ p₂.clearReg = p.clearReg ∧
      p₂.setReg = p.setReg) := by
  have h28 : n.toNat < 28 := by
    have : n < 28 := by simpa [MaxGPIOPin] using h1
    omega
  have hm13 : 13 < mem.length := by rw [hm]; norm_num [memLength]
  rw [NewPin_eq mem n h0 h1 hm13] at hp
  simp only [Option.some.injEq] at hp
  subst hp
  refine ⟨rfl, (Nat.div_eq_of_lt (by omega)).symm,
    by rw [Nat.mod_eq_of_lt (by omega)], by simp, by simp, by simp, ?_⟩
  intro mem₂ p₂ hm₂ hp₂
  have hm13₂ : 13 < mem₂.length := by rw [hm₂]; norm_num [memLength]
  rw [NewPin_eq mem₂ n h0 h1 hm13₂] at hp₂
  simp only [Option.some.injEq] at hp₂
  subst hp₂
  exact ⟨rfl, rfl, rfl, rfl, rfl, rfl⟩

/-- Witness for C1 at mem = 1024 zero words and n = 4. -/
theorem newPin_derived_fields_witness :
    (List.replicate 1024 (0 : Nat)).length = memLength / 4 ∧
    ((0 : Int) ≤ 4 ∧ (4 : Int) < MaxGPIOPin) ∧
    NewPin (List.replicate 1024 0) 4 =
      some (some ⟨4, 0, 13, 10, 7, 57, 0, 16, false⟩) ∧
    ((⟨4, 0, 13, 10, 7, 57, 0, 16, false⟩ : Pin).fsel = (4 : Int).toNat / 10 ∧
     (⟨4, 0, 13, 10, 7, 57, 0, 16, false⟩ : Pin).bank = (4 : Int).toNat / 32 ∧
     (⟨4, 0, 13, 10, 7, 57, 0, 16, false⟩ : Pin).mask =
       2 ^ ((4 : Int).toNat % 32) ∧
     (⟨4, 0, 13, 10, 7, 57, 0, 16, false⟩ : Pin).levelReg =
       (⟨4, 0, 13, 10, 7, 57, 0, 16, false⟩ : Pin).bank + 13 ∧
     (⟨4, 0, 13, 10, 7, 57, 0, 16, false⟩ : Pin).clearReg =
       (⟨4, 0, 13, 10, 7, 57, 0, 16, false⟩ : Pin).bank + 10 ∧
     (⟨4, 0, 13, 10, 7, 57, 0, 16, false⟩ : Pin).setReg =
       (⟨4, 0, 13, 10, 7, 57, 0, 16, false⟩ : Pin).bank + 7 ∧
     (∀ mem₂ p₂, mem₂.length = memLength / 4 →
        NewPin mem₂ 4 = some (some p₂) →
        p₂.fsel = (⟨4, 0, 13, 10, 7, 57, 0, 16, false⟩ : Pin).fsel ∧
        p₂.bank = (⟨4, 0, 13, 10, 7, 57, 0, 16, false⟩ : Pin).bank ∧
        p₂.mask = (⟨4, 0, 13, 10, 7, 57, 0, 16, false⟩ : Pin).mask ∧
        p₂.levelReg = (⟨4, 0, 13, 10, 7, 57, 0, 16, false⟩ : Pin).levelReg ∧
        p₂.clearReg = (⟨4, 0, 13, 10, 7, 57, 0, 16, false⟩ : Pin).clearReg ∧
        p₂.setReg = (⟨4, 0, 13, 10, 7, 57, 0, 16, false⟩ : Pin).setReg)) := by
  refine ⟨by simp [memLength], ⟨by decide, by decide⟩, by rfl, ?_⟩
  exact newPin_derived_fields (List.replicate 1024 0) 4 _
    (by simp [memLength]) (by decide) (by decide) (by rfl)

end Gpio

namespace Gpio

set_option maxRecDepth 10000

/-- Claim C9: NewPin fails exactly when the register map is not open (the
panic, modelled as none) or the line number is outside 0 <= n < MaxGPIOPin
(the nil handle, modelled as some none); for every in-range line while the
map is open, construction succeeds. -/
theorem newPin_failure_conditions (mem : List Nat) (n : Int)
    (hm : mem.length = 0 ∨ mem.length = memLength / 4) :
    (NewPin mem n = none ↔ mem.length = 0) ∧
    (mem.length ≠ 0 → (NewPin mem n = some none ↔ (n < 0 ∨ MaxGPIOPin ≤ n))) ∧
    (mem.length ≠ 0 → 0 ≤ n → n < MaxGPIOPin →
      ∃ p, NewPin mem n = some (some p)) := by
  rcases hm with h | h
  · rw [NewPin, if_pos h]
    exact ⟨by simp [h], fun hne => absurd h hne, fun hne => absurd h hne⟩
  · have hne : mem.length ≠ 0 := by rw [h]; norm_num [memLength]
    have hm13 : 13 < mem.length := by rw [h]; norm_num [memLength]
    by_cases hr : n < 0 ∨ MaxGPIOPin ≤ n
    · rw [NewPin, if_neg hne, if_pos hr]
      exact ⟨by simp [hne], fun _ => by simp [hr],
        fun _ h0 h1 => absurd hr (by omega)⟩
    · have h0 : 0 ≤ n := by omega
      have h1 : n < MaxGPIOPin := by
        rcases not_or.mp hr with ⟨_, hb⟩
        omega
      rw [NewPin_eq mem n h0 h1 hm13]
      exact ⟨by simp [hne], fun _ => by simp [hr], fun _ _ _ => ⟨_, rfl⟩⟩

/-- Witness for C9 at mem = 1024 zero words and n = 4. -/
theorem newPin_failure_conditions_witness :
    ((List.replicate 1024 (0 : Nat)).length = 0 ∨
      (List.replicate 1024 (0 : Nat)).length = memLength / 4) ∧
    ((NewPin (List.replicate 1024 0) 4 = none ↔
        (List.replicate 1024 (0 : Nat)).length = 0) ∧
     ((List.replicate 1024 (0 : Nat)).length ≠ 0 →
       (NewPin (List.replicate 1024 0) 4 = some none ↔
         ((4 : Int) < 0 ∨ MaxGPIOPin ≤ 4))) ∧
     ((List.replicate 1024 (0 : Nat)).length ≠ 0 → (0 : Int) ≤ 4 →
       (4 : Int) < MaxGPIOPin →
       ∃ p, NewPin (List.replicate 1024 0) 4 = some (some p))) :=
  ⟨Or.inr (by simp [memLength]),
    newPin_failure_conditions (List.replicate 1024 0) 4
      (Or.inr (by simp [memLength]))⟩

/-- Claim C10: NewPin initialises the shadow from the level register sampled
at construction: High exactly when the pin's mask ANDed with the level word
is non-zero, so Shadow before any Read or Write reflects the level observed
at construction rather than defaulting to Low. -/
theorem newPin_shadow_init (mem : List Nat) (n : Int) (p : Pin)
    (hm : mem.length = memLength / 4) (h0 : 0 ≤ n) (h1 : n < MaxGPIOPin)
    (hp : NewPin mem n = some (some p)) :
    Pin.Shadow p = decide (mem.getD p.levelReg 0 &&& p.mask ≠ 0) ∧
    (Pin.Shadow p = High ↔ mem.getD p.levelReg 0 &&& p.mask ≠ 0) ∧
    (Pin.Shadow p = Low ↔ mem.getD p.levelReg 0 &&& p.mask = 0) := by
  have hm13 : 13 < mem.length := by rw [hm]; norm_num [memLength]
  rw [NewPin_eq mem n h0 h1 hm13] at hp
  simp only [Option.some.injEq] at hp
  subst hp
  refine ⟨rfl, ?_, ?_⟩
  · simp [Pin.Shadow, High]
  · simp [Pin.Shadow, Low]

/-- Witness for C10: mem with level word 13 holding bit 4 set, n = 4. -/
theorem newPin_shadow_init_witness :
    ((List.replicate 1024 (0 : Nat)).set 13 16).length = memLength / 4 ∧
    NewPin ((List.replicate 1024 0).set 13 16) 4 =
      some (some ⟨4, 0, 13, 10, 7, 57, 0, 16, true⟩) ∧
    (Pin.Shadow ⟨4, 0, 13, 10, 7, 57, 0, 16, true⟩ =
      decide (((List.replicate 1024 (0 : Nat)).set 13 16).getD
        (⟨4, 0, 13, 10, 7, 57, 0, 16, true⟩ : Pin).levelReg 0 &&&
        (⟨4, 0, 13, 10, 7, 57, 0, 16, true⟩ : Pin).mask ≠ 0) ∧
     (Pin.Shadow ⟨4, 0, 13, 10, 7, 57, 0, 16, true⟩ = High ↔
      ((List.replicate 1024 (0 : Nat)).set 13 16).getD
        (⟨4, 0, 13, 10, 7, 57, 0, 16, true⟩ : Pin).levelReg 0 &&&
        (⟨4, 0, 13, 10, 7, 57, 0, 16, true⟩ : Pin).mask ≠ 0) ∧
     (Pin.Shadow ⟨4, 0, 13, 10, 7, 57, 0, 16, true⟩ = Low ↔
      ((List.replicate 1024 (0 : Nat)).set 13 16).getD
        (⟨4, 0, 13, 10, 7, 57, 0, 16, true⟩ : Pin).levelReg 0 &&&
        (⟨4, 0, 13, 10, 7, 57, 0, 16, true⟩ : Pin).mask = 0)) := by
  refine ⟨by simp [memLength], by rfl, ?_⟩
  exact newPin_shadow_init ((List.replicate 1024 0).set 13 16) 4 _
    (by simp [memLength]) (by decide) (by decide) (by rfl)

end Gpio

namespace Gpio

/-- Write of High resolves to a store of the whole mask into the set
register. -/
theorem Write_high_eq (mem : List Nat) (p : Pin) (hs : p.setReg < mem.length) :
    Pin.Write mem p High =
      some (mem.set p.setReg p.mask, { p with shadow := High }) := by
  rw [Pin.Write, if_neg (by simp [High, Low]), if_pos hs]

/-- Write of Low resolves to a store of the whole mask into the clear
register. -/
theorem Write_low_eq (mem : List Nat) (p : Pin) (hc : p.clearReg < mem.length) :
    Pin.Write mem p Low =
      some (mem.set p.clearReg p.mask, { p with shadow := Low }) := by
  rw [Pin.Write, if_pos rfl, if_pos hc]

/-- Claim C2: Read returns High exactly when the level word masked by the
pin's bit is non-zero and stores the returned level in the shadow; Write
(High) stores exactly the mask in the set register and Write (Low) stores
exactly the mask in the clear register, with no read-modify-write, both
setting the shadow to the written level. -/
theorem read_write_spec (mem : List Nat) (p : Pin) (w : Nat)
    (hl : mem.get? p.levelReg = some w) (hs : p.setReg < mem.length)
    (hc : p.clearReg < mem.length) :
    Pin.Read mem p = some (decide (w &&& p.mask ≠ 0),
      { p with shadow := decide (w &&& p.mask ≠ 0) }) ∧
    ((decide (w &&& p.mask ≠ 0) : Level) = High ↔ w &&& p.mask ≠ 0) ∧
    Pin.Write mem p High =
      some (mem.set p.setReg p.mask, { p with shadow := High }) ∧
    (mem.set p.setReg p.mask).get? p.setReg = some p.mask ∧
    Pin.Write mem p Low =
      some (mem.set p.clearReg p.mask, { p with shadow := Low }) ∧
    (mem.set p.clearReg p.mask).get? p.clearReg = some p.mask := by
  refine ⟨by rw [Pin.Read, hl], by simp [High], Write_high_eq mem p hs, ?_,
    Write_low_eq mem p hc, ?_⟩
  · rw [List.get?_eq_getElem?, List.getElem?_set_self hs]
  · rw [List.get?_eq_getElem?, List.getElem?_set_self hc]

/-- Witness for C2 at a 14-word memory with level word 8. -/
theorem read_write_spec_witness :
    (List.replicate 14 (8 : Nat)).get? 13 = some 8 ∧
    (7 : Nat) < (List.replicate 14 (8 : Nat)).length ∧
    (10 : Nat) < (List.replicate 14 (8 : Nat)).length ∧
    Pin.Read (List.replicate 14 8) ⟨3, 0, 13, 10, 7, 57, 0, 8, false⟩ =
      some (decide ((8 : Nat) &&& 8 ≠ 0),
        { (⟨3, 0, 13, 10, 7, 57, 0, 8, false⟩ : Pin) with
            shadow := decide ((8 : Nat) &&& 8 ≠ 0) }) ∧
    Pin.Write (List.replicate 14 8) ⟨3, 0, 13, 10, 7, 57, 0, 8, false⟩ High =
      some ((List.replicate 14 8).set 7 8,
        { (⟨3, 0, 13, 10, 7, 57, 0, 8, false⟩ : Pin) with shadow := High }) ∧
    Pin.Write (List.replicate 14 8) ⟨3, 0, 13, 10, 7, 57, 0, 8, false⟩ Low =
      some ((List.replicate 14 8).set 10 8,
        { (⟨3, 0, 13, 10, 7, 57, 0, 8, false⟩ : Pin) with shadow := Low }) := by
  have h := read_write_spec (List.replicate 14 8)
    ⟨3, 0, 13, 10, 7, 57, 0, 8, false⟩ 8 (by rfl) (by decide) (by decide)
  exact ⟨by rfl, by decide, by decide, h.1, h.2.2.1, h.2.2.2.2.1⟩

/-- Claim C8: Toggle writes the complement of the cached shadow, so Toggle
equals Write of the negated Shadow, the shadow after Toggle is the negation
of the shadow before, and a second Toggle restores it. -/
theorem toggle_complements_shadow (mem : List Nat) (p : Pin)
    (hc : p.clearReg < mem.length) (hs : p.setReg < mem.length) :
    Pin.Toggle mem p = Pin.Write mem p (!(Pin.Shadow p)) ∧
    (∃ mem₁ p₁, Pin.Toggle mem p = some (mem₁, p₁) ∧
      Pin.Shadow p₁ = (!(Pin.Shadow p)) ∧
      ∃ mem₂ p₂, Pin.Toggle mem₁ p₁ = some (mem₂, p₂) ∧
        Pin.Shadow p₂ = Pin.Shadow p) := by
  cases hsh : p.shadow with
  | true =>
      refine ⟨by rw [Pin.Toggle, if_pos hsh]; simp [Pin.Shadow, hsh, Low], ?_⟩
      refine ⟨mem.set p.clearReg p.mask, { p with shadow := Low },
        by rw [Pin.Toggle, if_pos hsh]; exact Write_low_eq mem p hc, ?_, ?_⟩
      · simp [Pin.Shadow, hsh, Low]
      · refine ⟨(mem.set p.clearReg p.mask).set p.setReg p.mask,
          { p with shadow := High }, ?_, by simp [Pin.Shadow, hsh, High]⟩
        rw [Pin.Toggle]
        rw [if_neg (by simp [Low])]
        exact Write_high_eq _ _ (by simpa using hs)
  | false =>
      refine ⟨by rw [Pin.Toggle, if_neg (by simp [hsh])]; simp [Pin.Shadow, hsh, High], ?_⟩
      refine ⟨mem.set p.setReg p.mask, { p with shadow := High },
        by rw [Pin.Toggle, if_neg (by simp [hsh])]; exact Write_high_eq mem p hs,
        ?_, ?_⟩
      · simp [Pin.Shadow, hsh, High]
      · refine ⟨(mem.set p.setReg p.mask).set p.clearReg p.mask,
          { p with shadow := Low }, ?_, by simp [Pin.Shadow, hsh, Low]⟩
        rw [Pin.Toggle]
        rw [if_pos (by simp [High])]
        exact Write_low_eq _ _ (by simpa using hc)

/-- Witness for C8 at a 14-word memory and a pin whose shadow is Low. -/
theorem toggle_complements_shadow_witness :
    (10 : Nat) < (List.replicate 14 (0 : Nat)).length ∧
    (7 : Nat) < (List.replicate 14 (0 : Nat)).length ∧
    Pin.Toggle (List.replicate 14 0) ⟨3, 0, 13, 10, 7, 57, 0, 8, false⟩ =
      Pin.Write (List.replicate 14 0) ⟨3, 0, 13, 10, 7, 57, 0, 8, false⟩
        (!(Pin.Shadow ⟨3, 0, 13, 10, 7, 57, 0, 8, false⟩)) ∧
    (∃ mem₁ p₁,
      Pin.Toggle (List.replicate 14 0) ⟨3, 0, 13, 10, 7, 57, 0, 8, false⟩ =
        some (mem₁, p₁) ∧
      Pin.Shadow p₁ = (!(Pin.Shadow ⟨3, 0, 13, 10, 7, 57, 0, 8, false⟩)) ∧
      ∃ mem₂ p₂, Pin.Toggle mem₁ p₁ = some (mem₂, p₂) ∧
        Pin.Shadow p₂ = Pin.Shadow ⟨3, 0, 13, 10, 7, 57, 0, 8, false⟩) := by
  have h := toggle_complements_shadow (List.replicate 14 0)
    ⟨3, 0, 13, 10, 7, 57, 0, 8, false⟩ (by decide) (by decide)
  exact ⟨by decide, by decide, h.1, h.2⟩

end Gpio

namespace Gpio

set_option maxRecDepth 10000

/-- Open on an already-mapped state returns AlreadyOpen and leaves the map
unchanged. -/
theorem Open_of_mapped (mem : List Nat) (env : OpenEnv) (hm : mem ≠ []) :
    Open mem env = (some .alreadyOpen, mem) := by
  rw [Open, if_pos (by simpa using hm)]

/-- Open on the empty state never returns AlreadyOpen. -/
theorem Open_empty_not_already (env : OpenEnv) :
    (Open [] env).1 ≠ some GpioError.alreadyOpen := by
  obtain ⟨ok, mm⟩ := env
  cases ok <;> rcases mm with _ | words <;> simp [Open]

/-- Claim C3: Open fails with AlreadyOpen exactly when a mapping already
exists, leaving the mapped state unchanged; in the sequence Open, Open,
Close, Open the second Open fails with AlreadyOpen and the third succeeds
after Close resets the map. -/
theorem open_alreadyOpen_and_reopen (mem : List Nat) (env env₁ env₃ : OpenEnv)
    (w w₃ : List Nat) (b : Bool)
    (h1 : env₁.openFileOk = true) (h2 : env₁.mmapRes = some w)
    (h3 : w.length = memLength / 4)
    (h4 : env₃.openFileOk = true) (h5 : env₃.mmapRes = some w₃) :
    ((Open mem env).1 = some .alreadyOpen ↔ mem ≠ []) ∧
    ((Open mem env).1 = some .alreadyOpen → (Open mem env).2 = mem) ∧
    Open [] env₁ = (none, w) ∧
    (∀ env₂, Open w env₂ = (some .alreadyOpen, w)) ∧
    (Close b).2 = [] ∧
    Open (Close b).2 env₃ = (none, w₃) := by
  have hw : w ≠ [] := by
    intro h
    rw [h] at h3
    simp [memLength] at h3
  have hiff : (Open mem env).1 = some GpioError.alreadyOpen ↔ mem ≠ [] := by
    constructor
    · intro h he
      subst he
      exact Open_empty_not_already env h
    · intro h
      rw [Open_of_mapped mem env h]
  refine ⟨hiff, ?_, ?_, ?_, rfl, ?_⟩
  · intro h
    rw [Open_of_mapped mem env (hiff.mp h)]
  · rw [Open, if_neg (by simp), h1, if_pos rfl, h2]
  · intro env₂
    exact Open_of_mapped w env₂ hw
  · show Open [] env₃ = (none, w₃)
    rw [Open, if_neg (by simp), h4, if_pos rfl, h5]

/-- Witness for C3 with a successful mmap of 1024 zero words. -/
theorem open_alreadyOpen_and_reopen_witness :
    ((⟨true, some (List.replicate 1024 0)⟩ : OpenEnv).openFileOk = true ∧
     (⟨true, some (List.replicate 1024 0)⟩ : OpenEnv).mmapRes =
       some (List.replicate 1024 0) ∧
     (List.replicate 1024 (0 : Nat)).length = memLength / 4) ∧
    (((Open [1] ⟨true, some []⟩).1 = some .alreadyOpen ↔ ([1] : List Nat) ≠ []) ∧
     Open [] ⟨true, some (List.replicate 1024 0)⟩ =
       (none, List.replicate 1024 0) ∧
     (∀ env₂, Open (List.replicate 1024 0) env₂ =
       (some .alreadyOpen, List.replicate 1024 0)) ∧
     (Close true).2 = [] ∧
     Open (Close true).2 ⟨true, some (List.replicate 1024 0)⟩ =
       (none, List.replicate 1024 0)) := by
  have h := open_alreadyOpen_and_reopen [1] ⟨true, some []⟩
    ⟨true, some (List.replicate 1024 0)⟩ ⟨true, some (List.replicate 1024 0)⟩
    (List.replicate 1024 0) (List.replicate 1024 0) true
    rfl rfl (by simp [memLength]) rfl rfl
  exact ⟨⟨rfl, rfl, by simp [memLength]⟩,
    h.1, h.2.2.1, h.2.2.2.1, h.2.2.2.2.1, h.2.2.2.2.2⟩

/-- Claim C4: RegisterPin on a line that already has a live registration
returns Busy with no side effects: the bookkeeping maps are unchanged, no
sysfs or epoll action is performed, and the existing registration's record
stays in place. -/
theorem registerPin_busy_no_side_effects (st : WatcherState)
    (pin hid fd : Nat) (env : RegisterEnv)
    (h : st.interruptFds.lookup pin = some fd) :
    RegisterPin st pin hid env = (some .busy, st, []) ∧
    (RegisterPin st pin hid env).2.1.interruptFds.lookup pin = some fd ∧
    (∀ i, st.interrupts.lookup fd = some i →
      (RegisterPin st pin hid env).2.1.interrupts.lookup fd = some i) := by
  have hr : RegisterPin st pin hid env = (some .busy, st, []) := by
    rw [RegisterPin, h]
  exact ⟨hr, by rw [hr]; exact h, fun i hi => by rw [hr]; exact hi⟩

/-- Witness for C4 on a watcher already holding a registration for line 4. -/
theorem registerPin_busy_no_side_effects_witness :
    (⟨[(4, 5)], [(5, ⟨4, 7, 5⟩)]⟩ : WatcherState).interruptFds.lookup 4 =
      some 5 ∧
    RegisterPin ⟨[(4, 5)], [(5, ⟨4, 7, 5⟩)]⟩ 4 9
        ⟨⟨true, .ok, true⟩, true, some 6, true, true⟩ =
      (some .busy, ⟨[(4, 5)], [(5, ⟨4, 7, 5⟩)]⟩, []) := by
  exact ⟨by rfl,
    (registerPin_busy_no_side_effects ⟨[(4, 5)], [(5, ⟨4, 7, 5⟩)]⟩ 4 9 5
      ⟨⟨true, .ok, true⟩, true, some 6, true, true⟩ (by rfl)).1⟩

end Gpio

namespace Gpio

/-- Claim C5: when registration of an unregistered line passes the export
step but any later step fails (edge write, value-file open, non-blocking
setup or epoll registration), RegisterPin returns the error, performs the
unexport rollback, and stores no bookkeeping entry for the line. -/
theorem registerPin_rollback_on_failure (st : WatcherState) (pin hid : Nat)
    (env : RegisterEnv)
    (hreg : st.interruptFds.lookup pin = none)
    (hexp : exportPin env.exportEnv = none)
    (hfail : env.setEdgeOk = false ∨ env.openValueFd = none ∨
      env.setNonblockOk = false ∨ env.epollCtlOk = false) :
    (∃ e, (RegisterPin st pin hid env).1 = some e) ∧
    (RegisterPin st pin hid env).2.1 = st ∧
    Action.unexportA ∈ (RegisterPin st pin hid env).2.2 ∧
    (RegisterPin st pin hid env).2.1.interruptFds.lookup pin = none := by
  obtain ⟨ee, se, ov, nb, ep⟩ := env
  simp only at hfail
  rw [RegisterPin, hreg, hexp]
  rcases se with _ | _ <;> rcases ov with _ | fd <;> rcases nb with _ | _ <;>
    rcases ep with _ | _ <;>
    simp_all [List.mem_cons] <;>
    exact hreg

/-- Witness for C5: export succeeds but the edge write fails. -/
theorem registerPin_rollback_on_failure_witness :
    ((⟨[], []⟩ : WatcherState).interruptFds.lookup 4 = none ∧
     exportPin (⟨true, .ok, true⟩ : ExportEnv) = none) ∧
    ((∃ e, (RegisterPin ⟨[], []⟩ 4 9
        ⟨⟨true, .ok, true⟩, false, some 6, true, true⟩).1 = some e) ∧
     (RegisterPin ⟨[], []⟩ 4 9
        ⟨⟨true, .ok, true⟩, false, some 6, true, true⟩).2.1 = ⟨[], []⟩ ∧
     Action.unexportA ∈ (RegisterPin ⟨[], []⟩ 4 9
        ⟨⟨true, .ok, true⟩, false, some 6, true, true⟩).2.2 ∧
     (RegisterPin ⟨[], []⟩ 4 9
        ⟨⟨true, .ok, true⟩, false, some 6, true,
          true⟩).2.1.interruptFds.lookup 4 = none) :=
  ⟨⟨rfl, rfl⟩,
    registerPin_rollback_on_failure ⟨[], []⟩ 4 9
      ⟨⟨true, .ok, true⟩, false, some 6, true, true⟩ rfl rfl
      (Or.inl rfl)⟩

/-- Counterexample for C6: when the export write answers EBUSY the current
code returns ErrBusy, not success, and registration of the line fails
instead of proceeding. -/
theorem export_ebusy_counterexample :
    exportPin ⟨true, .ebusy, true⟩ = some .busy ∧
    exportPin ⟨true, .ebusy, true⟩ ≠ none ∧
    RegisterPin ⟨[], []⟩ 4 9 ⟨⟨true, .ebusy, true⟩, true, some 6, true, true⟩ =
      (some .busy, ⟨[], []⟩, [.exportA]) :=
  ⟨rfl, by decide, rfl⟩

/-- Claim C6 as amended: when export is requested for a line already
exported on the sysfs interface (the write of the line number fails with
EBUSY), export returns the Busy error, so registration of that line fails
with Busy — performing no edge configuration and storing no bookkeeping —
rather than proceeding. -/
theorem export_ebusy_returns_busy (st : WatcherState) (pin hid : Nat)
    (env : RegisterEnv)
    (ho : env.exportEnv.openOk = true)
    (hw : env.exportEnv.writeRes = WriteRes.ebusy)
    (hreg : st.interruptFds.lookup pin = none) :
    exportPin env.exportEnv = some .busy ∧
    RegisterPin st pin hid env = (some .busy, st, [.exportA]) := by
  have he : exportPin env.exportEnv = some .busy := by
    rw [exportPin, ho, hw]
    rfl
  refine ⟨he, ?_⟩
  rw [RegisterPin, hreg, he]

/-- Witness for the amended C6 on an unregistered line. -/
theorem export_ebusy_returns_busy_witness :
    ((⟨true, .ebusy, true⟩ : ExportEnv).openOk = true ∧
     (⟨true, .ebusy, true⟩ : ExportEnv).writeRes = WriteRes.ebusy ∧
     (⟨[], []⟩ : WatcherState).interruptFds.lookup 4 = none) ∧
    (exportPin ⟨true, .ebusy, true⟩ = some .busy ∧
     RegisterPin ⟨[], []⟩ 4 9
         ⟨⟨true, .ebusy, true⟩, true, some 6, true, true⟩ =
       (some .busy, ⟨[], []⟩, [.exportA])) :=
  ⟨⟨rfl, rfl, rfl⟩,
    export_ebusy_returns_busy ⟨[], []⟩ 4 9
      ⟨⟨true, .ebusy, true⟩, true, some 6, true, true⟩ rfl rfl rfl⟩

end Gpio
